import Mathlib

set_option maxRecDepth 8192

/-!
Shallow embedding of the ghostpen backend core (src-tauri/src/llm.rs and
src-tauri/src/lib.rs). Rust strings are modelled as lists of characters;
the network-bound probe and completion calls are modelled by passing their
outcomes as explicit parameters. All definitions are transcribed from the
source functions they are named after.
-/

namespace Ghostpen

/-- Model of Rust char::is_whitespace for the ASCII whitespace used here. -/
def isWs (c : Char) : Bool :=
  c == ' ' || c == '\n' || c == '\t' || c == '\r'

/-- Model of str::trim — drop whitespace from both ends. -/
def trimS (s : List Char) : List Char :=
  ((s.dropWhile isWs).reverse.dropWhile isWs).reverse

/-- leadsWith pat s is true when pat occurs at the very start of s
(model of the prefix test underlying str::find and str::strip_prefix). -/
def leadsWith : List Char → List Char → Bool
  | [], _ => true
  | _ :: _, [] => false
  | a :: as, b :: bs => a == b && leadsWith as bs

/-- Model of str::find — index of the leftmost occurrence of pat in s. -/
def findSub (pat : List Char) : List Char → Option Nat
  | [] => if leadsWith pat [] then some 0 else none
  | c :: rest =>
    if leadsWith pat (c :: rest) then some 0
    else (findSub pat rest).map (fun n => n + 1)

/-- The delimiter list of parse_response (llm.rs line 190), in source order. -/
def delims : List (List Char) :=
  ["EXPLANATION:".data, "**Explanation:**".data, "**Why:**".data,
   "---".data, "\n\n**Changes".data]

/-- rewrite.strip_prefix("REWRITE:").or_else(strip_prefix("**Rewrite:**")).unwrap_or(rewrite)
from the delimiter branch of parse_response (llm.rs lines 195-198). -/
def stripRewriteLabel (s : List Char) : List Char :=
  if leadsWith ("REWRITE:".data) s then s.drop ("REWRITE:".data).length
  else if leadsWith ("**Rewrite:**".data) s then s.drop ("**Rewrite:**".data).length
  else s

/-- full.strip_prefix("REWRITE:").unwrap_or(full) from the no-delimiter
branch of parse_response (llm.rs lines 205-207). -/
def stripRewriteOnly (s : List Char) : List Char :=
  if leadsWith ("REWRITE:".data) s then s.drop ("REWRITE:".data).length else s

/-- The delimiter loop of parse_response: try each delimiter in list order,
return the split at the first one that str::find locates. -/
def parseResponseAux (full : List Char) : List (List Char) → Option (List Char × List Char)
  | [] => none
  | d :: ds =>
    match findSub d full with
    | some idx =>
      some (trimS (stripRewriteLabel (trimS (full.take idx))),
            trimS (full.drop (idx + d.length)))
    | none => parseResponseAux full ds

/-- parse_response (llm.rs lines 188-210). -/
def parseResponse (full : List Char) : List Char × List Char :=
  match parseResponseAux full delims with
  | some p => p
  | none => (trimS (stripRewriteOnly full), [])

/-- build_prompt (llm.rs lines 212-233); format! of each template with the
text appended where the placeholder stood. -/
def buildPrompt (text mode : List Char) : List Char :=
  if mode = "clarity".data then
    ("Rewrite this text for maximum clarity. Keep the meaning identical.\n\nFirst, provide the rewritten text. Then write EXPLANATION: followed by what you changed and why the writer should care (teach them).\n\nText: ").data ++ text
  else if mode = "concise".data then
    ("Make this text more concise. Cut unnecessary words without losing meaning.\n\nFirst, provide the rewritten text. Then write EXPLANATION: followed by what you cut and why it was unnecessary (teach the writer to self-edit).\n\nText: ").data ++ text
  else if mode = "formal".data then
    ("Rewrite in a more formal, professional tone.\n\nFirst, provide the rewritten text. Then write EXPLANATION: followed by what tone shifts you made and when formal tone matters.\n\nText: ").data ++ text
  else if mode = "casual".data then
    ("Rewrite in a more casual, conversational tone.\n\nFirst, provide the rewritten text. Then write EXPLANATION: followed by what you changed to make it more natural.\n\nText: ").data ++ text
  else if mode = "explain".data then
    ("Analyze this text as a writing coach. Identify grammar issues, unclear phrasing, and style problems. For each issue, explain WHAT is wrong and WHY it matters — teach the writer, don\u0027t just flag.\n\nText: ").data ++ text
  else
    ("Improve this text for clarity and correctness.\n\nFirst, provide the improved text. Then write EXPLANATION: followed by a brief teaching note.\n\nText: ").data ++ text

inductive Provider where
  | ollama
  | lmStudio
  deriving DecidableEq

def LMSTUDIO_URL : List Char := "http://127.0.0.1:1234".data

def OLLAMA_LOCAL_URL : List Char := "http://127.0.0.1:11434".data

def OLLAMA_MODEL : List Char := "qwen2.5:3b".data

def LMSTUDIO_MODEL : List Char := "default".data

def noServerError : List Char := "No LLM server found. Install Ollama or LM Studio.".data

/-- detect_provider (llm.rs lines 48-77). The two HTTP probes are modelled by
the booleans lmStudioUp and ollamaUp: a probe counts as up exactly when the
request returned Ok and the status was a success (request errors, timeouts and
non-success statuses all fall through to the next candidate). -/
def detectProvider (lmStudioUp ollamaUp : Bool) :
    Except (List Char) (Provider × List Char) :=
  if lmStudioUp then Except.ok (Provider.lmStudio, LMSTUDIO_URL)
  else if ollamaUp then Except.ok (Provider.ollama, OLLAMA_LOCAL_URL)
  else Except.error noServerError

structure LlmStatus where
  available : Bool
  provider : List Char
  model : List Char
  deriving DecidableEq

/-- check_status (llm.rs lines 112-130): always returns Ok, mapping a
detection failure to the unavailable snapshot. -/
def checkStatus (lmStudioUp ollamaUp : Bool) : Except (List Char) LlmStatus :=
  match detectProvider lmStudioUp ollamaUp with
  | Except.ok (Provider.ollama, _) =>
    Except.ok ⟨true, "Ollama".data, OLLAMA_MODEL⟩
  | Except.ok (Provider.lmStudio, _) =>
    Except.ok ⟨true, "LM Studio".data, LMSTUDIO_MODEL⟩
  | Except.error _ =>
    Except.ok ⟨false, "none".data, []⟩

structure ChatResponseMessage where
  content : List Char
  deriving DecidableEq

structure ChatChoice where
  message : ChatResponseMessage
  deriving DecidableEq

structure ChatResponse where
  choices : List ChatChoice
  deriving DecidableEq

structure RewriteResult where
  rewritten : List Char
  explanation : List Char
  deriving DecidableEq

/-- rewrite (llm.rs lines 132-186). Detection outcomes are the two probe
booleans; the chat-completions HTTP exchange is modelled by resp, the
deserialized response or the transport or decode error the question-mark
operator would propagate. -/
def rewrite (lmStudioUp ollamaUp : Bool)
    (resp : Except (List Char) ChatResponse) :
    Except (List Char) RewriteResult :=
  match detectProvider lmStudioUp ollamaUp with
  | Except.error e => Except.error e
  | Except.ok _ =>
    match resp with
    | Except.error e => Except.error e
    | Except.ok r =>
      let full := match r.choices with
        | [] => ([] : List Char)
        | c :: _ => trimS c.message.content
      let p := parseResponse full
      Except.ok ⟨p.1, p.2⟩

inductive Suggestion where
  | replaceWith (chars : List Char)
  | insertAfter (chars : List Char)
  | remove
  deriving DecidableEq

structure Lint where
  start : Nat
  endPos : Nat
  message : List Char
  suggestions : List Suggestion
  lint_kind : List Char

structure GrammarIssue where
  start : Nat
  endPos : Nat
  message : List Char
  suggestions : List (List Char)
  severity : List Char

structure TextStats where
  word_count : Nat
  sentence_count : Nat
  issue_count : Nat

structure CheckResult where
  issues : List GrammarIssue
  stats : TextStats

/-- Char-level projection of the guarded span extraction of check_grammar
(lib.rs lines 69-73), feeding the char-level checkGrammar model below. This
projection is total; the byte-accurate model of the source expression,
including the panic paths of the slice indexing, is originalSpanBytes. -/
def originalSpan (text : List Char) (start endPos : Nat) : List Char :=
  if endPos ≤ text.length then (text.take endPos).drop start else []

/-- A UTF-8 continuation byte (second or later byte of a multi-byte
character). -/
def contByte (b : Nat) : Bool := 128 ≤ b && b < 192

/-- Model of str::is_char_boundary over the UTF-8 bytes of the text: a byte
index is a boundary when it is 0 or the byte length, or when it is in range
and its byte is not a continuation byte. -/
def charBoundary (bytes : List Nat) (i : Nat) : Bool :=
  i == 0 || i == bytes.length ||
    (decide (i < bytes.length) && !contByte (bytes.getD i 0))

/-- Model of the Rust slice expression text[start..end] over the UTF-8 bytes
of the text: the sliced bytes when start ≤ end and both offsets lie on
character boundaries, and none where the indexing panics. -/
def sliceRust (bytes : List Nat) (start endPos : Nat) : Option (List Nat) :=
  if decide (start ≤ endPos) && charBoundary bytes start && charBoundary bytes endPos
  then some ((bytes.take endPos).drop start)
  else none

/-- Byte-accurate model of the guarded extraction of check_grammar
(lib.rs lines 69-73): the guard compares the span end against the byte
length of the text and substitutes the empty string when it is exceeded;
otherwise the slice expression runs and can still panic (none) when the
start exceeds the end or an offset falls inside a multi-byte character. -/
def originalSpanBytes (bytes : List Nat) (start endPos : Nat) : Option (List Nat) :=
  if endPos ≤ bytes.length then sliceRust bytes start endPos else some []

/-- The suggestion pre-expansion of check_grammar (lib.rs lines 74-88),
a filter_map whose every arm produces a value. -/
def normalizeSuggestions (origSpan : List Char) (ss : List Suggestion) :
    List (List Char) :=
  ss.filterMap fun s =>
    match s with
    | Suggestion.replaceWith cs => some cs
    | Suggestion.insertAfter cs => some (origSpan ++ cs)
    | Suggestion.remove => some []

/-- One GrammarIssue per lint (lib.rs lines 62-98). -/
def toGrammarIssue (text : List Char) (l : Lint) : GrammarIssue :=
  { start := l.start
    endPos := l.endPos
    message := l.message
    suggestions := normalizeSuggestions (originalSpan text l.start l.endPos) l.suggestions
    severity := l.lint_kind }

def isTerminal (c : Char) : Bool :=
  c == '.' || c == '!' || c == '?'

/-- Sentence statistic of check_grammar (lib.rs lines 101-104):
count of terminal punctuation characters, floored at 1 by .max(1). -/
def sentenceCount (text : List Char) : Nat :=
  Nat.max (text.filter isTerminal).length 1

def wordCountAux : List Char → Bool → Nat
  | [], _ => 0
  | c :: rest, inWord =>
    if isWs c then wordCountAux rest false
    else if inWord then wordCountAux rest true
    else wordCountAux rest true + 1

/-- Word statistic of check_grammar (lib.rs line 100):
count of whitespace-delimited tokens. -/
def wordCount (text : List Char) : Nat := wordCountAux text false

/-- check_grammar (lib.rs lines 54-123). The external harper linter is the
lints parameter; the audit log call is an external fire-and-forget effect
with no influence on the returned value. -/
def checkGrammar (text : List Char) (lints : List Lint) : CheckResult :=
  let issues := lints.map (toGrammarIssue text)
  { issues := issues
    stats :=
      { word_count := wordCount text
        sentence_count := sentenceCount text
        issue_count := issues.length } }

/-! Shared lemmas about the string helpers and the parser loop. -/

lemma leadsWith_append (pat u t : List Char) (h : leadsWith pat u = true) :
    leadsWith pat (u ++ t) = true := by
  induction pat generalizing u with
  | nil => simp [leadsWith]
  | cons a as ih =>
    cases u with
    | nil => simp [leadsWith] at h
    | cons b bs =>
      simp only [List.cons_append, leadsWith, Bool.and_eq_true] at h ⊢
      exact ⟨h.1, ih bs h.2⟩

lemma findSub_append_isSome (pat s t : List Char)
    (h : (findSub pat s).isSome = true) :
    (findSub pat (s ++ t)).isSome = true := by
  induction s with
  | nil =>
    by_cases hp : leadsWith pat [] = true
    · cases pat with
      | nil => cases t <;> simp [findSub, leadsWith]
      | cons a as => simp [leadsWith] at hp
    · simp [findSub, hp] at h
  | cons c rest ih =>
    rw [List.cons_append]
    by_cases hc : leadsWith pat (c :: rest) = true
    · have hca := leadsWith_append pat (c :: rest) t hc
      rw [List.cons_append] at hca
      simp [findSub, hca]
    · simp [findSub, hc, Option.isSome_map] at h
      by_cases hc2 : leadsWith pat (c :: (rest ++ t)) = true
      · simp [findSub, hc2]
      · simp [findSub, hc2, Option.isSome_map]
        exact ih h

lemma parseResponseAux_none (full : List Char) :
    ∀ ds : List (List Char), (∀ d ∈ ds, findSub d full = none) →
      parseResponseAux full ds = none := by
  intro ds
  induction ds with
  | nil => intro _; rfl
  | cons d ds ih =>
    intro h
    have hd : findSub d full = none := h d (List.mem_cons_self d ds)
    simp only [parseResponseAux, hd]
    exact ih fun d2 hm => h d2 (List.mem_cons_of_mem d hm)

lemma parseResponseAux_found (full : List Char) :
    ∀ (pre : List (List Char)) (d : List Char) (post : List (List Char)) (i : Nat),
      (∀ d2 ∈ pre, findSub d2 full = none) → findSub d full = some i →
      parseResponseAux full (pre ++ d :: post) =
        some (trimS (stripRewriteLabel (trimS (full.take i))),
              trimS (full.drop (i + d.length))) := by
  intro pre
  induction pre with
  | nil =>
    intro d post i _ hf
    simp [parseResponseAux, hf]
  | cons p pre ih =>
    intro d post i hpre hf
    have hp : findSub p full = none := hpre p (List.mem_cons_self p pre)
    simp only [List.cons_append, parseResponseAux, hp]
    exact ih d post i (fun d2 hm => hpre d2 (List.mem_cons_of_mem p hm)) hf

lemma filter_isTerminal_length (text : List Char) :
    (text.filter isTerminal).length =
      text.count '.' + text.count '!' + text.count '?' := by
  induction text with
  | nil => rfl
  | cons c cs ih =>
    by_cases h1 : c = '.'
    · subst h1
      simp +decide [List.filter_cons, List.count_cons, isTerminal, ih]
      omega
    · by_cases h2 : c = '!'
      · subst h2
        simp +decide [List.filter_cons, List.count_cons, isTerminal, ih]
        omega
      · by_cases h3 : c = '?'
        · subst h3
          simp +decide [List.filter_cons, List.count_cons, isTerminal, ih]
          omega
        · have h1b : (c == '.') = false := by simp [h1]
          have h2b : (c == '!') = false := by simp [h2]
          have h3b : (c == '?') = false := by simp [h3]
          have h1c : ('.' == c) = false := by simp; exact fun hh => h1 hh.symm
          have h2c : ('!' == c) = false := by simp; exact fun hh => h2 hh.symm
          have h3c : ('?' == c) = false := by simp; exact fun hh => h3 hh.symm
          simp [List.filter_cons, List.count_cons, isTerminal,
            h1b, h2b, h3b, h1c, h2c, h3c, ih]

/-! Claim theorems. -/

/-- C1 counterexample: in the completion "abc --- def EXPLANATION: ghi" the
delimiter "---" occurs at index 4, before "EXPLANATION:" at index 12, yet
parse_response splits at index 12 (list order), not at the earliest
occurrence in the text, which would give ("abc", "def EXPLANATION: ghi"). -/
theorem parse_response_priority_counterexample :
    findSub ("---".data) ("abc --- def EXPLANATION: ghi".data) = some 4 ∧
    findSub ("EXPLANATION:".data) ("abc --- def EXPLANATION: ghi".data) = some 12 ∧
    parseResponse ("abc --- def EXPLANATION: ghi".data) =
      ("abc --- def".data, "ghi".data) ∧
    parseResponse ("abc --- def EXPLANATION: ghi".data) ≠
      ("abc".data, "def EXPLANATION: ghi".data) :=
  ⟨by decide, by decide, by decide, by decide⟩

/-- C1 (amended): parse_response splits at the first occurrence in the text
of the earliest delimiter in the priority list that occurs anywhere in the
text; when two different delimiters both occur, list order decides, not scan
position. -/
theorem parse_response_splits_at_list_priority (full : List Char)
    (pre post : List (List Char)) (d : List Char) (i : Nat)
    (hdec : delims = pre ++ d :: post)
    (hpre : ∀ d2 ∈ pre, findSub d2 full = none)
    (hf : findSub d full = some i) :
    parseResponse full =
      (trimS (stripRewriteLabel (trimS (full.take i))),
       trimS (full.drop (i + d.length))) := by
  have hx := parseResponseAux_found full pre d post i hpre hf
  simp [parseResponse, hdec, hx]

/-- C1 witness: "**Why:**" is the earliest listed delimiter occurring in
"abc --- def **Why:** x" (at index 12), so the split happens there even
though "---" occurs earlier in the text (at index 4). -/
theorem parse_response_splits_at_list_priority_witness :
    parseResponse ("abc --- def **Why:** x".data) =
      ("abc --- def".data, "x".data) := by
  have h := parse_response_splits_at_list_priority
    ("abc --- def **Why:** x".data)
    ["EXPLANATION:".data, "**Explanation:**".data]
    ["---".data, "\n\n**Changes".data]
    ("**Why:**".data) 12 (by decide) (by decide) (by decide)
  exact h

/-- C2 counterexample: for the recognized mode "explain" the prompt built for
the text "hello" contains no delimiter from the set parse_response
recognizes, so that mode does not instruct the model to emit a recognized
delimiter token. -/
theorem build_prompt_explain_mode_counterexample :
    (delims.all fun d =>
      (findSub d (buildPrompt ("hello".data) ("explain".data))).isNone) = true :=
  by decide

/-- C2 (amended): for every text and every mode other than "explain" —
the recognized modes clarity, concise, formal, casual and the unrecognized
fallback — the prompt built by build_prompt contains the literal token
"EXPLANATION:", and that token is a member of the delimiter set
parse_response recognizes. The explain mode asks for inline per-issue
explanations and contains no recognized delimiter token. -/
theorem build_prompt_delimiter_coupling (text mode : List Char)
    (h : mode ≠ "explain".data) :
    "EXPLANATION:".data ∈ delims ∧
    (findSub ("EXPLANATION:".data) (buildPrompt text mode)).isSome = true := by
  refine ⟨by simp [delims], ?_⟩
  unfold buildPrompt
  by_cases h1 : mode = "clarity".data
  · rw [if_pos h1]
    exact findSub_append_isSome _ _ _ (by decide)
  · rw [if_neg h1]
    by_cases h2 : mode = "concise".data
    · rw [if_pos h2]
      exact findSub_append_isSome _ _ _ (by decide)
    · rw [if_neg h2]
      by_cases h3 : mode = "formal".data
      · rw [if_pos h3]
        exact findSub_append_isSome _ _ _ (by decide)
      · rw [if_neg h3]
        by_cases h4 : mode = "casual".data
        · rw [if_pos h4]
          exact findSub_append_isSome _ _ _ (by decide)
        · rw [if_neg h4, if_neg h]
          exact findSub_append_isSome _ _ _ (by decide)

/-- C2 witness: the clarity prompt for the text "x" contains "EXPLANATION:",
which parse_response recognizes. -/
theorem build_prompt_delimiter_coupling_witness :
    "EXPLANATION:".data ∈ delims ∧
    (findSub ("EXPLANATION:".data)
      (buildPrompt ("x".data) ("clarity".data))).isSome = true :=
  build_prompt_delimiter_coupling ("x".data) ("clarity".data) (by decide)

/-- C3: the end ≤ len guard of check_grammar does not make span extraction
total. On the text "é abc" (UTF-8 bytes 195,169,32,97,98,99) the span 0..1 —
harper's char-indexed span for the first character, used as byte offsets —
has start ≤ end and passes the guard (1 ≤ 6), yet the slice indexing panics
because byte offset 1 falls inside the two-byte character é; only a span end
beyond the byte length is neutralized to the empty string. -/
theorem original_span_panics_inside_utf8_char :
    (0 : Nat) ≤ 1 ∧
    (1 : Nat) ≤ ([195, 169, 32, 97, 98, 99] : List Nat).length ∧
    originalSpanBytes [195, 169, 32, 97, 98, 99] 0 1 = none ∧
    originalSpanBytes [195, 169, 32, 97, 98, 99] 0 99 = some [] :=
  ⟨by decide, by decide, by decide, by decide⟩

/-- C4: suggestion normalization in check_grammar is total and order
preserving — it equals a map over the input suggestions, producing exactly
one string per variant in input order: the replacement text for replace-with,
the original flagged substring followed by the inserted text for
insert-after, and the empty string for remove. -/
theorem suggestion_normalization_total_order_preserving
    (origSpan : List Char) (ss : List Suggestion) :
    normalizeSuggestions origSpan ss =
      ss.map (fun s => match s with
        | Suggestion.replaceWith cs => cs
        | Suggestion.insertAfter cs => origSpan ++ cs
        | Suggestion.remove => []) ∧
    (normalizeSuggestions origSpan ss).length = ss.length := by
  have h : normalizeSuggestions origSpan ss =
      ss.map (fun s => match s with
        | Suggestion.replaceWith cs => cs
        | Suggestion.insertAfter cs => origSpan ++ cs
        | Suggestion.remove => []) := by
    induction ss with
    | nil => rfl
    | cons s ss ih =>
      cases s <;> simp only [normalizeSuggestions, List.filterMap_cons,
        List.map_cons] at ih ⊢ <;> rw [ih]
  exact ⟨h, by rw [h, List.length_map]⟩

/-- C5: when both probes fail, rewrite returns the terminal no-server error
while check_status returns the non-error snapshot with available = false,
provider = "none" and an empty model; moreover check_status never returns an
error for any probe outcomes. -/
theorem no_provider_rewrite_errors_status_ok :
    (∀ resp, rewrite false false resp = Except.error noServerError) ∧
    checkStatus false false = Except.ok ⟨false, "none".data, []⟩ ∧
    (∀ lmUp olUp, ∃ st, checkStatus lmUp olUp = Except.ok st) := by
  refine ⟨fun resp => rfl, rfl, fun lmUp olUp => ?_⟩
  cases lmUp <;> cases olUp <;> exact ⟨_, rfl⟩

/-- C6 counterexample: "REWRITE: hi" contains no recognized delimiter, yet
parse_response does not return the entire completion as the rewritten text:
it strips the REWRITE: label and returns ("hi", ""). -/
theorem parse_response_no_delimiter_counterexample :
    (delims.all fun d => (findSub d ("REWRITE: hi".data)).isNone) = true ∧
    parseResponse ("REWRITE: hi".data) ≠ ("REWRITE: hi".data, []) ∧
    parseResponse ("REWRITE: hi".data) = ("hi".data, []) :=
  ⟨by decide, by decide, by decide⟩

/-- C6 (amended): when no recognized delimiter occurs in the completion,
parse_response returns the completion — with an optional leading REWRITE:
label stripped and surrounding whitespace trimmed — as the rewritten text,
with an empty explanation; in particular
parse("Just some text with no marker") = ("Just some text with no marker", ""). -/
theorem parse_response_no_delimiter :
    (∀ full : List Char, (∀ d ∈ delims, findSub d full = none) →
      parseResponse full = (trimS (stripRewriteOnly full), [])) ∧
    parseResponse ("Just some text with no marker".data) =
      ("Just some text with no marker".data, []) := by
  constructor
  · intro full h
    have hx := parseResponseAux_none full delims h
    simp [parseResponse, hx]
  · decide

/-- C6 witness: the delimiter-free completion "xyz" degrades to the trimmed,
label-stripped completion with an empty explanation. -/
theorem parse_response_no_delimiter_witness :
    parseResponse ("xyz".data) = (trimS (stripRewriteOnly ("xyz".data)), []) :=
  parse_response_no_delimiter.1 ("xyz".data) (by decide)

/-- C7: detection is a fixed-priority probe — whenever both candidate servers
are reachable it selects LM Studio, the higher-priority provider, and any two
runs under the same probe outcomes return the same result. -/
theorem detect_provider_priority_deterministic (lmUp olUp : Bool)
    (h1 : lmUp = true) (h2 : olUp = true) :
    detectProvider lmUp olUp = Except.ok (Provider.lmStudio, LMSTUDIO_URL) ∧
    ∀ lmUp2 olUp2, lmUp2 = lmUp → olUp2 = olUp →
      detectProvider lmUp2 olUp2 = detectProvider lmUp olUp := by
  subst h1
  subst h2
  exact ⟨rfl, fun a b ha hb => by subst ha; subst hb; rfl⟩

/-- C7 witness: with both probes succeeding, detection returns LM Studio. -/
theorem detect_provider_priority_deterministic_witness :
    detectProvider true true = Except.ok (Provider.lmStudio, LMSTUDIO_URL) :=
  (detect_provider_priority_deterministic true true rfl rfl).1

/-- C8: the sentence count of check_grammar equals the number of terminal
punctuation characters in the text clamped below at 1, hence is never less
than 1; in particular the text "hello world" yields sentence_count = 1. -/
theorem sentence_count_clamped :
    (∀ text lints, (checkGrammar text lints).stats.sentence_count =
        Nat.max (text.count '.' + text.count '!' + text.count '?') 1 ∧
      1 ≤ (checkGrammar text lints).stats.sentence_count) ∧
    (∀ lints, (checkGrammar ("hello world".data) lints).stats.sentence_count = 1) := by
  constructor
  · intro text lints
    have hc : (checkGrammar text lints).stats.sentence_count =
        Nat.max ((text.filter isTerminal).length) 1 := rfl
    rw [hc, filter_isTerminal_length]
    exact ⟨rfl, Nat.le_max_right _ _⟩
  · intro lints
    rfl

/-- C9: on a text for which the linter produces no findings, check_grammar
returns an empty issue list and an issue_count of 0. -/
theorem no_findings_zero_issues (text : List Char) :
    (checkGrammar text []).issues.length = 0 ∧
    (checkGrammar text []).stats.issue_count = 0 :=
  ⟨rfl, rfl⟩

/-- C10: when detection succeeds and the chat response deserializes to an
empty choices list, rewrite succeeds with an empty rewritten text and an
empty explanation instead of returning an error. -/
theorem rewrite_empty_choices_ok (lmUp olUp : Bool) (p : Provider × List Char)
    (h : detectProvider lmUp olUp = Except.ok p) :
    rewrite lmUp olUp (Except.ok (ChatResponse.mk [])) =
      Except.ok ⟨[], []⟩ := by
  cases lmUp
  · cases olUp
    · simp [detectProvider] at h
    · rfl
  · rfl

/-- C10 witness: with LM Studio detected and an empty choices list, rewrite
returns the empty rewrite result. -/
theorem rewrite_empty_choices_ok_witness :
    rewrite true false (Except.ok (ChatResponse.mk [])) =
      Except.ok ⟨[], []⟩ :=
  rewrite_empty_choices_ok true false (Provider.lmStudio, LMSTUDIO_URL) rfl

end Ghostpen
